import Mathlib

/-
Shallow embedding of src/main.py (class NewsletterSender).

The program sends a newsletter to each recipient of a CSV list over SMTP,
with a rate limiter, a bounded retry-on-disconnect policy, and a per-recipient
results file.  The embedding models:

  * the mutable fields self.sent_count / self.last_send_time (lines 27-28),
  * _rate_limit (lines 53-72) with the countdown sleep loop,
  * the send loop of send_newsletters (lines 124-172): per recipient up to
    3 attempts, each attempt = rate-limit check, per-attempt template file
    read (lines 141-142), message build, send; on success a row
    (email, success, "") and sent_count/last_send_time updates (151-155);
    on SMTPServerDisconnected a 5 s sleep + reconnect and retry when
    attempts remain, else the exception propagates and aborts the run
    (157-166); on any other exception a row (email, failed, str(e)) and
    break (167-172),
  * the pre-flight connection test (line 98) which runs before the results
    file is created (line 114).

Modelling conventions: time is a rational clock that advances exactly by the
sleeps the code performs; the outcome of each send attempt (success /
disconnection / other error) is an oracle indexed by recipient and attempt;
the reconnect at lines 163-164 is assumed to succeed (an exception there is
outside the scope of the claims).  The trace records the rate-limiter
consultations and send attempts in program order.  sc_writes records every
value ever assigned to sent_count, starting with the 0 of __init__.
-/

namespace NewsletterSender

/-- Rate-limit parameters from config['rate_limit']. -/
structure RateLimitCfg where
  emails_per_batch : Nat
  batch_delay : Nat
  delay_between_emails : ℚ
deriving DecidableEq, Repr

/-- The configuration fields the send loop reads. -/
structure Config where
  rate_limit : RateLimitCfg
  subject : String
  from_addr : String
deriving DecidableEq, Repr

/-- One data row of the results CSV (after the header line). -/
structure Row where
  email : String
  status : String
  error_message : String
deriving DecidableEq, Repr

/-- An outbound MIME message as built at lines 135-143. -/
structure Msg where
  to_addr : String
  subject : String
  from_addr : String
  body : String
deriving DecidableEq, Repr

/-- Outcome of one server.send_message call, supplied by the oracle. -/
inductive SendResult where
  | success
  | disconnected
  | otherError (msg : String)
deriving DecidableEq, Repr

/-- Observable events: a _rate_limit() consultation and a send attempt
(recipient index, attempt index), in program order. -/
inductive Event where
  | rateLimitCheck
  | sendAttempt (recipient : Nat) (attempt : Nat)
deriving DecidableEq, Repr

/-- The mutable state of a run, plus instrumentation (trace, counters,
history of sent_count writes). -/
structure RunState where
  sent_count : Nat
  last_send_time : ℚ
  now : ℚ
  rows : List Row
  trace : List Event
  reconnects : Nat
  template_reads : Nat
  msgs : List Msg
  sc_writes : List Nat
deriving DecidableEq, Repr

/-- Total sleep of the countdown loop at lines 59-61: one second per
iteration of range(batch_delay, 0, -1). -/
def countdownSleep (batch_delay : Nat) : ℚ :=
  ((List.range batch_delay).map fun _ => (1 : ℚ)).sum

/-- _rate_limit (lines 53-72).  If sent_count has reached emails_per_batch:
sleep the countdown and write sent_count := 0.  Otherwise, if less than
delay_between_emails elapsed since last_send_time, sleep the remaining
delta.  last_send_time is never written here. -/
def rate_limit (cfg : RateLimitCfg) (rs : RunState) : RunState :=
  let rs0 : RunState := { rs with trace := rs.trace ++ [Event.rateLimitCheck] }
  if cfg.emails_per_batch ≤ rs0.sent_count then
    { rs0 with
      now := rs0.now + countdownSleep cfg.batch_delay,
      sent_count := 0,
      sc_writes := rs0.sc_writes ++ [0] }
  else
    let time_since_last := rs0.now - rs0.last_send_time
    if time_since_last < cfg.delay_between_emails then
      let wait_time := cfg.delay_between_emails - time_since_last
      { rs0 with now := rs0.now + wait_time }
    else
      rs0

/-- The message built at lines 135-143: headers from config, body = the
template file content, verbatim. -/
def buildMsg (cfg : Config) (tmpl : String) (email : String) : Msg :=
  { to_addr := email, subject := cfg.subject, from_addr := cfg.from_addr,
    body := tmpl }

/-- State after the first half of one attempt iteration (lines 132-147):
the rate-limit call, the per-attempt template file read, the message build,
and the send attempt event. -/
def attemptPrefix (cfg : Config) (tmpl : String) (idx : Nat) (email : String)
    (attempt : Nat) (rs : RunState) : RunState :=
  let rs1 := rate_limit cfg.rate_limit rs
  { rs1 with
    template_reads := rs1.template_reads + 1,
    msgs := rs1.msgs ++ [buildMsg cfg tmpl email],
    trace := rs1.trace ++ [Event.sendAttempt idx attempt] }

/-- State after the SMTPServerDisconnected handler when attempts remain
(lines 159-164): sleep 5 seconds, reconnect and re-authenticate. -/
def afterReconnect (cfg : Config) (tmpl : String) (idx : Nat) (email : String)
    (attempt : Nat) (rs : RunState) : RunState :=
  let rs2 := attemptPrefix cfg tmpl idx email attempt rs
  { rs2 with now := rs2.now + 5, reconnects := rs2.reconnects + 1 }

/-- State after a successful send (lines 148-155): the row
(email, success, "") is written, sent_count is incremented and
last_send_time is set to the current clock. -/
def afterSuccess (cfg : Config) (tmpl : String) (idx : Nat) (email : String)
    (attempt : Nat) (rs : RunState) : RunState :=
  let rs2 := attemptPrefix cfg tmpl idx email attempt rs
  { rs2 with
    rows := rs2.rows ++ [⟨email, "success", ""⟩],
    sent_count := rs2.sent_count + 1,
    sc_writes := rs2.sc_writes ++ [rs2.sent_count + 1],
    last_send_time := rs2.now }

/-- State after the generic exception handler (lines 167-172): the row
(email, failed, str(e)) is written; sent_count and last_send_time are not
touched. -/
def afterOtherError (cfg : Config) (tmpl : String) (idx : Nat) (email : String)
    (attempt : Nat) (m : String) (rs : RunState) : RunState :=
  let rs2 := attemptPrefix cfg tmpl idx email attempt rs
  { rs2 with rows := rs2.rows ++ [⟨email, "failed", m⟩] }

/-- The inner for-attempt loop (lines 127-172) for one recipient, from
attempt index `attempt` with `fuel` iterations left (the top-level call is
attempt 0 with fuel 3, matching retries = 3).  The code retries on
disconnection while attempt < retries - 1, i.e. while fuel > 1.
Except.error carries the run state at the moment the exception propagates
(the rows already written stay in the file). -/
def attemptLoop (cfg : Config) (tmpl : String) (oracle : Nat → SendResult)
    (idx : Nat) (email : String) :
    Nat → Nat → RunState → Except RunState RunState
  | _, 0, rs => Except.ok rs
  | attempt, fuel + 1, rs =>
    match oracle attempt with
    | SendResult.success =>
      Except.ok (afterSuccess cfg tmpl idx email attempt rs)
    | SendResult.disconnected =>
      if 0 < fuel then
        attemptLoop cfg tmpl oracle idx email (attempt + 1) fuel
          (afterReconnect cfg tmpl idx email attempt rs)
      else
        Except.error (attemptPrefix cfg tmpl idx email attempt rs)
    | SendResult.otherError m =>
      Except.ok (afterOtherError cfg tmpl idx email attempt m rs)

/-- The outer for-recipient loop (lines 124-172).  `oracle i a` is the
outcome of attempt `a` for recipient `i`. -/
def sendLoop (cfg : Config) (tmpl : String)
    (oracle : Nat → Nat → SendResult) :
    List String → Nat → RunState → Except RunState RunState
  | [], _, rs => Except.ok rs
  | email :: rest, idx, rs =>
    match attemptLoop cfg tmpl (oracle idx) idx email 0 3 rs with
    | Except.error rs1 => Except.error rs1
    | Except.ok rs1 => sendLoop cfg tmpl oracle rest (idx + 1) rs1

/-- Result of a whole send_newsletters call.  preflightFailure: the
pre-flight connection test raised, before the results file was created.
aborted: the results file exists (header written) and a fatal exception
propagated with the given state.  completed: normal termination. -/
inductive RunOutcome where
  | preflightFailure
  | aborted (rs : RunState)
  | completed (rs : RunState)
deriving DecidableEq, Repr

/-- The run state at entry of the recipient loop: counters as set by
__init__ (sent_count = 0, last_send_time = 0), clock at `t0`, and one
template read from the _read_template call at line 100. -/
def initRunState (t0 : ℚ) : RunState :=
  { sent_count := 0, last_send_time := 0, now := t0, rows := [], trace := [],
    reconnects := 0, template_reads := 1, msgs := [], sc_writes := [0] }

/-- send_newsletters (lines 90-179).  preflight_ok models whether
_test_smtp_connection (line 98) succeeds; main_connect_ok models whether the
connect + login at lines 120-121 succeeds.  The pre-flight test runs before
the results file is created at line 114, so its failure yields no file at
all; a failure of the main connection leaves the file with only the header. -/
def send_newsletters (cfg : Config) (preflight_ok main_connect_ok : Bool)
    (tmpl : String) (recipients : List String)
    (oracle : Nat → Nat → SendResult) (t0 : ℚ) : RunOutcome :=
  if preflight_ok = false then
    RunOutcome.preflightFailure
  else
    if main_connect_ok = false then
      RunOutcome.aborted (initRunState t0)
    else
      match sendLoop cfg tmpl oracle recipients 0 (initRunState t0) with
      | Except.error rs => RunOutcome.aborted rs
      | Except.ok rs => RunOutcome.completed rs

/-- The run state carried by an Except result, whichever side it is on. -/
def stateOf : Except RunState RunState → RunState
  | Except.ok rs => rs
  | Except.error rs => rs

/-- The data rows of the results file, or none when no file was created. -/
def rowsWritten : RunOutcome → Option (List Row)
  | RunOutcome.preflightFailure => none
  | RunOutcome.aborted rs => some rs.rows
  | RunOutcome.completed rs => some rs.rows

/-- The final run state, or none when the run died before the loop state
existed. -/
def finalState : RunOutcome → Option RunState
  | RunOutcome.preflightFailure => none
  | RunOutcome.aborted rs => some rs
  | RunOutcome.completed rs => some rs

/-- Whether an event is a send attempt. -/
def Event.isSend : Event → Bool
  | Event.sendAttempt _ _ => true
  | _ => false

/-- Number of send attempts recorded in a trace. -/
def countSends (tr : List Event) : Nat :=
  (tr.filter Event.isSend).length

/-- Number of send attempts of recipient `i` recorded in a trace. -/
def countSendsOf (i : Nat) (tr : List Event) : Nat :=
  (tr.filter fun e => e ∈ [Event.sendAttempt i 0, Event.sendAttempt i 1,
    Event.sendAttempt i 2]).length

/-- Scans a trace whose previous event is `prev`: true when every send
attempt in the remainder directly follows a rate-limit check. -/
def okFrom : Event → List Event → Bool
  | _, [] => true
  | prev, e :: rest =>
    (if e.isSend then prev = Event.rateLimitCheck else true) && okFrom e rest

/-- Every send attempt in the trace is immediately preceded by a
rate-limit check. -/
def sendsPreceded : List Event → Bool
  | [] => true
  | e :: rest => !e.isSend && okFrom e rest

/-- Whether an Except result is the error case. -/
def errored : Except RunState RunState → Bool
  | Except.error _ => true
  | Except.ok _ => false

/-- Pause decision of the rate limiter. -/
inductive PauseDecision where
  | batchPause (d : ℚ)
  | shortPause (d : ℚ)
  | noPause
deriving DecidableEq, Repr

/-- This definition follows the wording of the spec contract
shouldPause(sentCount, lastSendTime, config, now) (spec section 4.1), to be
compared with the rate_limit embedding of the source. -/
def shouldPause (sentCount : Nat) (lastSendTime : ℚ) (cfg : RateLimitCfg)
    (now : ℚ) : PauseDecision :=
  if sentCount ≥ cfg.emails_per_batch then
    PauseDecision.batchPause cfg.batch_delay
  else if now - lastSendTime < cfg.delay_between_emails then
    PauseDecision.shortPause (cfg.delay_between_emails - (now - lastSendTime))
  else
    PauseDecision.noPause

/-- The sleep duration a pause decision enforces. -/
def pauseOf : PauseDecision → ℚ
  | PauseDecision.batchPause d => d
  | PauseDecision.shortPause d => d
  | PauseDecision.noPause => 0


theorem countdownSleep_eq (n : Nat) : countdownSleep n = n := by
  induction n with
  | zero => simp [countdownSleep]
  | succ k ih =>
    simp only [countdownSleep, List.range_succ, List.map_append, List.sum_append,
      List.map_cons, List.map_nil, List.sum_cons, List.sum_nil] at ih ⊢
    rw [ih]
    push_cast
    ring

theorem rate_limit_sent_count (cfg : RateLimitCfg) (rs : RunState) :
    (rate_limit cfg rs).sent_count =
      if cfg.emails_per_batch ≤ rs.sent_count then 0 else rs.sent_count := by
  simp only [rate_limit]
  split <;> (try split) <;> simp_all

theorem rate_limit_last_send_time (cfg : RateLimitCfg) (rs : RunState) :
    (rate_limit cfg rs).last_send_time = rs.last_send_time := by
  simp only [rate_limit]
  split <;> (try split) <;> rfl

theorem rate_limit_rows (cfg : RateLimitCfg) (rs : RunState) :
    (rate_limit cfg rs).rows = rs.rows := by
  simp only [rate_limit]
  split <;> (try split) <;> rfl

theorem rate_limit_trace (cfg : RateLimitCfg) (rs : RunState) :
    (rate_limit cfg rs).trace = rs.trace ++ [Event.rateLimitCheck] := by
  simp only [rate_limit]
  split <;> (try split) <;> rfl

theorem rate_limit_reconnects (cfg : RateLimitCfg) (rs : RunState) :
    (rate_limit cfg rs).reconnects = rs.reconnects := by
  simp only [rate_limit]
  split <;> (try split) <;> rfl

theorem rate_limit_template_reads (cfg : RateLimitCfg) (rs : RunState) :
    (rate_limit cfg rs).template_reads = rs.template_reads := by
  simp only [rate_limit]
  split <;> (try split) <;> rfl

theorem rate_limit_msgs (cfg : RateLimitCfg) (rs : RunState) :
    (rate_limit cfg rs).msgs = rs.msgs := by
  simp only [rate_limit]
  split <;> (try split) <;> rfl

theorem rate_limit_sc_writes (cfg : RateLimitCfg) (rs : RunState) :
    (rate_limit cfg rs).sc_writes =
      if cfg.emails_per_batch ≤ rs.sent_count then rs.sc_writes ++ [0]
      else rs.sc_writes := by
  simp only [rate_limit]
  split <;> (try split) <;> simp_all

theorem rate_limit_now (cfg : RateLimitCfg) (rs : RunState) :
    (rate_limit cfg rs).now = rs.now +
      pauseOf (shouldPause rs.sent_count rs.last_send_time cfg rs.now) := by
  simp only [rate_limit, shouldPause, ge_iff_le]
  split <;> (try split) <;> simp_all [pauseOf, countdownSleep_eq]

theorem attemptPrefix_sent_count (cfg : Config) (tmpl : String) (idx : Nat)
    (email : String) (attempt : Nat) (rs : RunState) :
    (attemptPrefix cfg tmpl idx email attempt rs).sent_count =
      (rate_limit cfg.rate_limit rs).sent_count := rfl

theorem attemptPrefix_last_send_time (cfg : Config) (tmpl : String) (idx : Nat)
    (email : String) (attempt : Nat) (rs : RunState) :
    (attemptPrefix cfg tmpl idx email attempt rs).last_send_time =
      rs.last_send_time := by
  simp [attemptPrefix, rate_limit_last_send_time]

theorem attemptPrefix_now (cfg : Config) (tmpl : String) (idx : Nat)
    (email : String) (attempt : Nat) (rs : RunState) :
    (attemptPrefix cfg tmpl idx email attempt rs).now =
      (rate_limit cfg.rate_limit rs).now := rfl

theorem attemptPrefix_rows (cfg : Config) (tmpl : String) (idx : Nat)
    (email : String) (attempt : Nat) (rs : RunState) :
    (attemptPrefix cfg tmpl idx email attempt rs).rows = rs.rows := by
  simp [attemptPrefix, rate_limit_rows]

theorem attemptPrefix_trace (cfg : Config) (tmpl : String) (idx : Nat)
    (email : String) (attempt : Nat) (rs : RunState) :
    (attemptPrefix cfg tmpl idx email attempt rs).trace =
      rs.trace ++ [Event.rateLimitCheck, Event.sendAttempt idx attempt] := by
  simp [attemptPrefix, rate_limit_trace]

theorem attemptPrefix_template_reads (cfg : Config) (tmpl : String) (idx : Nat)
    (email : String) (attempt : Nat) (rs : RunState) :
    (attemptPrefix cfg tmpl idx email attempt rs).template_reads =
      rs.template_reads + 1 := by
  simp [attemptPrefix, rate_limit_template_reads]

theorem attemptPrefix_msgs (cfg : Config) (tmpl : String) (idx : Nat)
    (email : String) (attempt : Nat) (rs : RunState) :
    (attemptPrefix cfg tmpl idx email attempt rs).msgs =
      rs.msgs ++ [buildMsg cfg tmpl email] := by
  simp [attemptPrefix, rate_limit_msgs]

theorem attemptPrefix_reconnects (cfg : Config) (tmpl : String) (idx : Nat)
    (email : String) (attempt : Nat) (rs : RunState) :
    (attemptPrefix cfg tmpl idx email attempt rs).reconnects =
      rs.reconnects := by
  simp [attemptPrefix, rate_limit_reconnects]

theorem attemptPrefix_sc_writes (cfg : Config) (tmpl : String) (idx : Nat)
    (email : String) (attempt : Nat) (rs : RunState) :
    (attemptPrefix cfg tmpl idx email attempt rs).sc_writes =
      (rate_limit cfg.rate_limit rs).sc_writes := rfl

theorem attemptLoop_zero (cfg : Config) (tmpl : String)
    (oracle : Nat → SendResult) (idx : Nat) (email : String) (attempt : Nat)
    (rs : RunState) :
    attemptLoop cfg tmpl oracle idx email attempt 0 rs = Except.ok rs := rfl

theorem attemptLoop_success (cfg : Config) (tmpl : String)
    (oracle : Nat → SendResult) (idx : Nat) (email : String)
    (attempt fuel : Nat) (rs : RunState)
    (h : oracle attempt = SendResult.success) :
    attemptLoop cfg tmpl oracle idx email attempt (fuel + 1) rs =
      Except.ok (afterSuccess cfg tmpl idx email attempt rs) := by
  simp [attemptLoop, h]

theorem attemptLoop_disc_retry (cfg : Config) (tmpl : String)
    (oracle : Nat → SendResult) (idx : Nat) (email : String)
    (attempt fuel : Nat) (rs : RunState) (hf : 0 < fuel)
    (h : oracle attempt = SendResult.disconnected) :
    attemptLoop cfg tmpl oracle idx email attempt (fuel + 1) rs =
      attemptLoop cfg tmpl oracle idx email (attempt + 1) fuel
        (afterReconnect cfg tmpl idx email attempt rs) := by
  simp [attemptLoop, h, hf]

theorem attemptLoop_disc_last (cfg : Config) (tmpl : String)
    (oracle : Nat → SendResult) (idx : Nat) (email : String)
    (attempt : Nat) (rs : RunState)
    (h : oracle attempt = SendResult.disconnected) :
    attemptLoop cfg tmpl oracle idx email attempt 1 rs =
      Except.error (attemptPrefix cfg tmpl idx email attempt rs) := by
  simp [attemptLoop, h]

theorem attemptLoop_other (cfg : Config) (tmpl : String)
    (oracle : Nat → SendResult) (idx : Nat) (email : String)
    (attempt fuel : Nat) (m : String) (rs : RunState)
    (h : oracle attempt = SendResult.otherError m) :
    attemptLoop cfg tmpl oracle idx email attempt (fuel + 1) rs =
      Except.ok (afterOtherError cfg tmpl idx email attempt m rs) := by
  simp [attemptLoop, h]



theorem rate_limit_sc_le (cfg : RateLimitCfg) (rs : RunState) :
    (rate_limit cfg rs).sent_count ≤ rs.sent_count := by
  rw [rate_limit_sent_count]
  split <;> omega

theorem rate_limit_sc_lt (cfg : RateLimitCfg) (rs : RunState)
    (h : 1 ≤ cfg.emails_per_batch) :
    (rate_limit cfg rs).sent_count < cfg.emails_per_batch := by
  rw [rate_limit_sent_count]
  split <;> omega

theorem afterSuccess_rows (cfg : Config) (tmpl : String) (idx : Nat)
    (email : String) (attempt : Nat) (rs : RunState) :
    (afterSuccess cfg tmpl idx email attempt rs).rows =
      rs.rows ++ [⟨email, "success", ""⟩] := by
  simp [afterSuccess, attemptPrefix_rows]

theorem afterSuccess_sent_count (cfg : Config) (tmpl : String) (idx : Nat)
    (email : String) (attempt : Nat) (rs : RunState) :
    (afterSuccess cfg tmpl idx email attempt rs).sent_count =
      (rate_limit cfg.rate_limit rs).sent_count + 1 := rfl

theorem afterSuccess_last_send_time (cfg : Config) (tmpl : String) (idx : Nat)
    (email : String) (attempt : Nat) (rs : RunState) :
    (afterSuccess cfg tmpl idx email attempt rs).last_send_time =
      (rate_limit cfg.rate_limit rs).now := rfl

theorem afterSuccess_trace (cfg : Config) (tmpl : String) (idx : Nat)
    (email : String) (attempt : Nat) (rs : RunState) :
    (afterSuccess cfg tmpl idx email attempt rs).trace =
      rs.trace ++ [Event.rateLimitCheck, Event.sendAttempt idx attempt] := by
  simp [afterSuccess, attemptPrefix_trace]

theorem afterSuccess_template_reads (cfg : Config) (tmpl : String) (idx : Nat)
    (email : String) (attempt : Nat) (rs : RunState) :
    (afterSuccess cfg tmpl idx email attempt rs).template_reads =
      rs.template_reads + 1 := by
  simp [afterSuccess, attemptPrefix_template_reads]

theorem afterSuccess_msgs (cfg : Config) (tmpl : String) (idx : Nat)
    (email : String) (attempt : Nat) (rs : RunState) :
    (afterSuccess cfg tmpl idx email attempt rs).msgs =
      rs.msgs ++ [buildMsg cfg tmpl email] := by
  simp [afterSuccess, attemptPrefix_msgs]

theorem afterSuccess_sc_writes (cfg : Config) (tmpl : String) (idx : Nat)
    (email : String) (attempt : Nat) (rs : RunState) :
    (afterSuccess cfg tmpl idx email attempt rs).sc_writes =
      (rate_limit cfg.rate_limit rs).sc_writes ++
        [(rate_limit cfg.rate_limit rs).sent_count + 1] := rfl

theorem afterOtherError_rows (cfg : Config) (tmpl : String) (idx : Nat)
    (email : String) (attempt : Nat) (m : String) (rs : RunState) :
    (afterOtherError cfg tmpl idx email attempt m rs).rows =
      rs.rows ++ [⟨email, "failed", m⟩] := by
  simp [afterOtherError, attemptPrefix_rows]

theorem afterOtherError_sent_count (cfg : Config) (tmpl : String) (idx : Nat)
    (email : String) (attempt : Nat) (m : String) (rs : RunState) :
    (afterOtherError cfg tmpl idx email attempt m rs).sent_count =
      (rate_limit cfg.rate_limit rs).sent_count := rfl

theorem afterOtherError_last_send_time (cfg : Config) (tmpl : String)
    (idx : Nat) (email : String) (attempt : Nat) (m : String) (rs : RunState) :
    (afterOtherError cfg tmpl idx email attempt m rs).last_send_time =
      rs.last_send_time := by
  simp [afterOtherError, attemptPrefix_last_send_time]

theorem afterOtherError_trace (cfg : Config) (tmpl : String) (idx : Nat)
    (email : String) (attempt : Nat) (m : String) (rs : RunState) :
    (afterOtherError cfg tmpl idx email attempt m rs).trace =
      rs.trace ++ [Event.rateLimitCheck, Event.sendAttempt idx attempt] := by
  simp [afterOtherError, attemptPrefix_trace]

theorem afterOtherError_template_reads (cfg : Config) (tmpl : String)
    (idx : Nat) (email : String) (attempt : Nat) (m : String) (rs : RunState) :
    (afterOtherError cfg tmpl idx email attempt m rs).template_reads =
      rs.template_reads + 1 := by
  simp [afterOtherError, attemptPrefix_template_reads]

theorem afterOtherError_msgs (cfg : Config) (tmpl : String) (idx : Nat)
    (email : String) (attempt : Nat) (m : String) (rs : RunState) :
    (afterOtherError cfg tmpl idx email attempt m rs).msgs =
      rs.msgs ++ [buildMsg cfg tmpl email] := by
  simp [afterOtherError, attemptPrefix_msgs]

theorem afterOtherError_sc_writes (cfg : Config) (tmpl : String) (idx : Nat)
    (email : String) (attempt : Nat) (m : String) (rs : RunState) :
    (afterOtherError cfg tmpl idx email attempt m rs).sc_writes =
      (rate_limit cfg.rate_limit rs).sc_writes := rfl

theorem afterReconnect_rows (cfg : Config) (tmpl : String) (idx : Nat)
    (email : String) (attempt : Nat) (rs : RunState) :
    (afterReconnect cfg tmpl idx email attempt rs).rows = rs.rows := by
  simp [afterReconnect, attemptPrefix_rows]

theorem afterReconnect_sent_count (cfg : Config) (tmpl : String) (idx : Nat)
    (email : String) (attempt : Nat) (rs : RunState) :
    (afterReconnect cfg tmpl idx email attempt rs).sent_count =
      (rate_limit cfg.rate_limit rs).sent_count := rfl

theorem afterReconnect_last_send_time (cfg : Config) (tmpl : String)
    (idx : Nat) (email : String) (attempt : Nat) (rs : RunState) :
    (afterReconnect cfg tmpl idx email attempt rs).last_send_time =
      rs.last_send_time := by
  simp [afterReconnect, attemptPrefix_last_send_time]

theorem afterReconnect_now (cfg : Config) (tmpl : String) (idx : Nat)
    (email : String) (attempt : Nat) (rs : RunState) :
    (afterReconnect cfg tmpl idx email attempt rs).now =
      (rate_limit cfg.rate_limit rs).now + 5 := rfl

theorem afterReconnect_trace (cfg : Config) (tmpl : String) (idx : Nat)
    (email : String) (attempt : Nat) (rs : RunState) :
    (afterReconnect cfg tmpl idx email attempt rs).trace =
      rs.trace ++ [Event.rateLimitCheck, Event.sendAttempt idx attempt] := by
  simp [afterReconnect, attemptPrefix_trace]

theorem afterReconnect_template_reads (cfg : Config) (tmpl : String)
    (idx : Nat) (email : String) (attempt : Nat) (rs : RunState) :
    (afterReconnect cfg tmpl idx email attempt rs).template_reads =
      rs.template_reads + 1 := by
  simp [afterReconnect, attemptPrefix_template_reads]

theorem afterReconnect_msgs (cfg : Config) (tmpl : String) (idx : Nat)
    (email : String) (attempt : Nat) (rs : RunState) :
    (afterReconnect cfg tmpl idx email attempt rs).msgs =
      rs.msgs ++ [buildMsg cfg tmpl email] := by
  simp [afterReconnect, attemptPrefix_msgs]

theorem afterReconnect_sc_writes (cfg : Config) (tmpl : String) (idx : Nat)
    (email : String) (attempt : Nat) (rs : RunState) :
    (afterReconnect cfg tmpl idx email attempt rs).sc_writes =
      (rate_limit cfg.rate_limit rs).sc_writes := rfl

theorem afterReconnect_reconnects (cfg : Config) (tmpl : String) (idx : Nat)
    (email : String) (attempt : Nat) (rs : RunState) :
    (afterReconnect cfg tmpl idx email attempt rs).reconnects =
      rs.reconnects + 1 := by
  simp [afterReconnect, attemptPrefix_reconnects]

theorem stateOf_ok (rs : RunState) : stateOf (Except.ok rs) = rs := rfl

theorem stateOf_error (rs : RunState) : stateOf (Except.error rs) = rs := rfl

theorem countSends_append (a b : List Event) :
    countSends (a ++ b) = countSends a + countSends b := by
  simp [countSends, List.filter_append]



theorem attemptLoop_ok_rows (cfg : Config) (tmpl : String)
    (oracle : Nat → SendResult) (idx : Nat) (email : String) :
    ∀ fuel attempt rs rs', 0 < fuel →
      attemptLoop cfg tmpl oracle idx email attempt fuel rs = Except.ok rs' →
      ∃ st m, rs'.rows = rs.rows ++ [⟨email, st, m⟩] := by
  intro fuel
  induction fuel with
  | zero => intro attempt rs rs' h; omega
  | succ k ih =>
    intro attempt rs rs' _ hok
    cases h : oracle attempt with
    | success =>
      rw [attemptLoop_success cfg tmpl oracle idx email attempt k rs h] at hok
      exact ⟨"success", "", by
        rw [← Except.ok.injEq .. |>.mp hok, afterSuccess_rows]⟩
    | disconnected =>
      cases k with
      | zero =>
        rw [attemptLoop_disc_last cfg tmpl oracle idx email attempt rs h] at hok
        cases hok
      | succ j =>
        rw [attemptLoop_disc_retry cfg tmpl oracle idx email attempt (j + 1) rs
          (Nat.succ_pos j) h] at hok
        obtain ⟨st, m, hr⟩ := ih (attempt + 1) _ rs' (Nat.succ_pos j) hok
        exact ⟨st, m, by rw [hr, afterReconnect_rows]⟩
    | otherError m =>
      rw [attemptLoop_other cfg tmpl oracle idx email attempt k m rs h] at hok
      exact ⟨"failed", m, by
        rw [← Except.ok.injEq .. |>.mp hok, afterOtherError_rows]⟩

theorem sendLoop_ok_emails (cfg : Config) (tmpl : String)
    (oracle : Nat → Nat → SendResult) :
    ∀ recipients idx rs rs',
      sendLoop cfg tmpl oracle recipients idx rs = Except.ok rs' →
      rs'.rows.map Row.email = rs.rows.map Row.email ++ recipients := by
  intro recipients
  induction recipients with
  | nil =>
    intro idx rs rs' h
    simp only [sendLoop] at h
    rw [← Except.ok.injEq .. |>.mp h]
    simp
  | cons e rest ih =>
    intro idx rs rs' h
    simp only [sendLoop] at h
    cases hA : attemptLoop cfg tmpl (oracle idx) idx e 0 3 rs with
    | error rs1 => rw [hA] at h; cases h
    | ok rs1 =>
      rw [hA] at h
      have hrest := ih (idx + 1) rs1 rs' h
      obtain ⟨st, m, hr⟩ :=
        attemptLoop_ok_rows cfg tmpl (oracle idx) idx e 3 0 rs rs1
          (by omega) hA
      rw [hrest, hr]
      simp



theorem attemptLoop_sends_le (cfg : Config) (tmpl : String)
    (oracle : Nat → SendResult) (idx : Nat) (email : String) :
    ∀ fuel attempt rs,
      countSends (stateOf
          (attemptLoop cfg tmpl oracle idx email attempt fuel rs)).trace ≤
        countSends rs.trace + fuel := by
  intro fuel
  induction fuel with
  | zero => intro attempt rs; simp [attemptLoop_zero, stateOf_ok]
  | succ k ih =>
    intro attempt rs
    cases h : oracle attempt with
    | success =>
      rw [attemptLoop_success cfg tmpl oracle idx email attempt k rs h,
        stateOf_ok, afterSuccess_trace, countSends_append]
      simp [countSends, Event.isSend]
    | disconnected =>
      cases k with
      | zero =>
        rw [attemptLoop_disc_last cfg tmpl oracle idx email attempt rs h,
          stateOf_error, attemptPrefix_trace, countSends_append]
        simp [countSends, Event.isSend]
      | succ j =>
        rw [attemptLoop_disc_retry cfg tmpl oracle idx email attempt (j + 1)
          rs (Nat.succ_pos j) h]
        have hih := ih (attempt + 1) (afterReconnect cfg tmpl idx email attempt rs)
        rw [afterReconnect_trace, countSends_append] at hih
        simp [countSends, Event.isSend] at hih
        calc countSends (stateOf (attemptLoop cfg tmpl oracle idx email
              (attempt + 1) (j + 1)
              (afterReconnect cfg tmpl idx email attempt rs))).trace
            ≤ (countSends rs.trace + 1) + (j + 1) := hih
          _ ≤ countSends rs.trace + (j + 1 + 1) := by omega
    | otherError m =>
      rw [attemptLoop_other cfg tmpl oracle idx email attempt k m rs h,
        stateOf_ok, afterOtherError_trace, countSends_append]
      simp [countSends, Event.isSend]

theorem attemptLoop_errored_iff (cfg : Config) (tmpl : String)
    (oracle : Nat → SendResult) (idx : Nat) (email : String) (rs : RunState) :
    errored (attemptLoop cfg tmpl oracle idx email 0 3 rs) = true ↔
      (oracle 0 = SendResult.disconnected ∧
       oracle 1 = SendResult.disconnected ∧
       oracle 2 = SendResult.disconnected) := by
  have e3 : (3 : Nat) = 2 + 1 := rfl
  have e2 : (2 : Nat) = 1 + 1 := rfl
  cases h0 : oracle 0 with
  | success =>
    rw [e3, attemptLoop_success cfg tmpl oracle idx email 0 2 rs h0]
    simp [errored, h0]
  | otherError m =>
    rw [e3, attemptLoop_other cfg tmpl oracle idx email 0 2 m rs h0]
    simp [errored, h0]
  | disconnected =>
    rw [e3, attemptLoop_disc_retry cfg tmpl oracle idx email 0 2 rs
      (by omega) h0]
    cases h1 : oracle 1 with
    | success =>
      rw [e2, attemptLoop_success cfg tmpl oracle idx email 1 1 _ h1]
      simp [errored, h1]
    | otherError m =>
      rw [e2, attemptLoop_other cfg tmpl oracle idx email 1 1 m _ h1]
      simp [errored, h1]
    | disconnected =>
      rw [e2, attemptLoop_disc_retry cfg tmpl oracle idx email 1 1 _
        (by omega) h1]
      cases h2 : oracle 2 with
      | success =>
        rw [attemptLoop_success cfg tmpl oracle idx email 2 0 _ h2]
        simp [errored, h0, h1, h2]
      | otherError m =>
        rw [attemptLoop_other cfg tmpl oracle idx email 2 0 m _ h2]
        simp [errored, h0, h1, h2]
      | disconnected =>
        rw [attemptLoop_disc_last cfg tmpl oracle idx email 2 _ h2]
        simp [errored, h0, h1, h2]



theorem countSends_pair (i a : Nat) :
    countSends [Event.rateLimitCheck, Event.sendAttempt i a] = 1 := rfl

theorem sendLoop_nil (cfg : Config) (tmpl : String)
    (oracle : Nat → Nat → SendResult) (idx : Nat) (rs : RunState) :
    sendLoop cfg tmpl oracle [] idx rs = Except.ok rs := rfl

theorem sendLoop_cons_ok (cfg : Config) (tmpl : String)
    (oracle : Nat → Nat → SendResult) (e : String) (rest : List String)
    (idx : Nat) (rs rs1 : RunState)
    (hA : attemptLoop cfg tmpl (oracle idx) idx e 0 3 rs = Except.ok rs1) :
    sendLoop cfg tmpl oracle (e :: rest) idx rs =
      sendLoop cfg tmpl oracle rest (idx + 1) rs1 := by
  simp only [sendLoop, hA]

theorem sendLoop_cons_error (cfg : Config) (tmpl : String)
    (oracle : Nat → Nat → SendResult) (e : String) (rest : List String)
    (idx : Nat) (rs rs1 : RunState)
    (hA : attemptLoop cfg tmpl (oracle idx) idx e 0 3 rs = Except.error rs1) :
    sendLoop cfg tmpl oracle (e :: rest) idx rs = Except.error rs1 := by
  simp only [sendLoop, hA]

theorem okFrom_append_pair (i a : Nat) :
    ∀ l prev, okFrom prev l = true →
      okFrom prev (l ++ [Event.rateLimitCheck, Event.sendAttempt i a]) =
        true := by
  intro l
  induction l with
  | nil => intro prev _; simp [okFrom, Event.isSend]
  | cons e rest ih =>
    intro prev h
    simp only [okFrom, Bool.and_eq_true] at h
    simp only [List.cons_append, okFrom, Bool.and_eq_true]
    exact ⟨h.1, ih e h.2⟩

theorem sendsPreceded_append_pair (tr : List Event) (i a : Nat)
    (h : sendsPreceded tr = true) :
    sendsPreceded (tr ++ [Event.rateLimitCheck, Event.sendAttempt i a]) =
      true := by
  cases tr with
  | nil => simp [sendsPreceded, okFrom, Event.isSend]
  | cons e rest =>
    simp only [sendsPreceded, Bool.and_eq_true] at h
    simp only [List.cons_append, sendsPreceded, Bool.and_eq_true]
    exact ⟨h.1, okFrom_append_pair i a rest e h.2⟩

theorem attemptLoop_sendsPreceded (cfg : Config) (tmpl : String)
    (oracle : Nat → SendResult) (idx : Nat) (email : String) :
    ∀ fuel attempt rs, sendsPreceded rs.trace = true →
      sendsPreceded (stateOf
        (attemptLoop cfg tmpl oracle idx email attempt fuel rs)).trace =
        true := by
  intro fuel
  induction fuel with
  | zero => intro attempt rs h; rw [attemptLoop_zero, stateOf_ok]; exact h
  | succ k ih =>
    intro attempt rs hpre
    cases h : oracle attempt with
    | success =>
      rw [attemptLoop_success cfg tmpl oracle idx email attempt k rs h,
        stateOf_ok, afterSuccess_trace]
      exact sendsPreceded_append_pair rs.trace idx attempt hpre
    | disconnected =>
      cases k with
      | zero =>
        rw [attemptLoop_disc_last cfg tmpl oracle idx email attempt rs h,
          stateOf_error, attemptPrefix_trace]
        exact sendsPreceded_append_pair rs.trace idx attempt hpre
      | succ j =>
        rw [attemptLoop_disc_retry cfg tmpl oracle idx email attempt (j + 1)
          rs (Nat.succ_pos j) h]
        apply ih
        rw [afterReconnect_trace]
        exact sendsPreceded_append_pair rs.trace idx attempt hpre
    | otherError m =>
      rw [attemptLoop_other cfg tmpl oracle idx email attempt k m rs h,
        stateOf_ok, afterOtherError_trace]
      exact sendsPreceded_append_pair rs.trace idx attempt hpre

theorem sendLoop_sendsPreceded (cfg : Config) (tmpl : String)
    (oracle : Nat → Nat → SendResult) :
    ∀ recipients idx rs, sendsPreceded rs.trace = true →
      sendsPreceded (stateOf
        (sendLoop cfg tmpl oracle recipients idx rs)).trace = true := by
  intro recipients
  induction recipients with
  | nil => intro idx rs h; exact h
  | cons e rest ih =>
    intro idx rs hpre
    cases hA : attemptLoop cfg tmpl (oracle idx) idx e 0 3 rs with
    | error rs1 =>
      rw [sendLoop_cons_error cfg tmpl oracle e rest idx rs rs1 hA,
        stateOf_error]
      have h1 := attemptLoop_sendsPreceded cfg tmpl (oracle idx) idx e 3 0 rs hpre
      rw [hA, stateOf_error] at h1
      exact h1
    | ok rs1 =>
      rw [sendLoop_cons_ok cfg tmpl oracle e rest idx rs rs1 hA]
      have h1 := attemptLoop_sendsPreceded cfg tmpl (oracle idx) idx e 3 0 rs hpre
      rw [hA, stateOf_ok] at h1
      exact ih (idx + 1) rs1 h1

theorem attemptLoop_template_reads (cfg : Config) (tmpl : String)
    (oracle : Nat → SendResult) (idx : Nat) (email : String) :
    ∀ fuel attempt rs,
      (stateOf (attemptLoop cfg tmpl oracle idx email attempt fuel
          rs)).template_reads + countSends rs.trace =
        rs.template_reads + countSends (stateOf
          (attemptLoop cfg tmpl oracle idx email attempt fuel rs)).trace := by
  intro fuel
  induction fuel with
  | zero => intro attempt rs; rw [attemptLoop_zero, stateOf_ok]
  | succ k ih =>
    intro attempt rs
    cases h : oracle attempt with
    | success =>
      rw [attemptLoop_success cfg tmpl oracle idx email attempt k rs h,
        stateOf_ok, afterSuccess_trace, afterSuccess_template_reads,
        countSends_append, countSends_pair]
      omega
    | disconnected =>
      cases k with
      | zero =>
        rw [attemptLoop_disc_last cfg tmpl oracle idx email attempt rs h,
          stateOf_error, attemptPrefix_trace, attemptPrefix_template_reads,
          countSends_append, countSends_pair]
        omega
      | succ j =>
        rw [attemptLoop_disc_retry cfg tmpl oracle idx email attempt (j + 1)
          rs (Nat.succ_pos j) h]
        have hih := ih (attempt + 1)
          (afterReconnect cfg tmpl idx email attempt rs)
        rw [afterReconnect_trace, afterReconnect_template_reads,
          countSends_append, countSends_pair] at hih
        omega
    | otherError m =>
      rw [attemptLoop_other cfg tmpl oracle idx email attempt k m rs h,
        stateOf_ok, afterOtherError_trace, afterOtherError_template_reads,
        countSends_append, countSends_pair]
      omega

theorem sendLoop_template_reads (cfg : Config) (tmpl : String)
    (oracle : Nat → Nat → SendResult) :
    ∀ recipients idx rs,
      (stateOf (sendLoop cfg tmpl oracle recipients idx rs)).template_reads +
          countSends rs.trace =
        rs.template_reads + countSends (stateOf
          (sendLoop cfg tmpl oracle recipients idx rs)).trace := by
  intro recipients
  induction recipients with
  | nil => intro idx rs; rw [sendLoop_nil, stateOf_ok]
  | cons e rest ih =>
    intro idx rs
    cases hA : attemptLoop cfg tmpl (oracle idx) idx e 0 3 rs with
    | error rs1 =>
      rw [sendLoop_cons_error cfg tmpl oracle e rest idx rs rs1 hA]
      have h1 := attemptLoop_template_reads cfg tmpl (oracle idx) idx e 3 0 rs
      rw [hA, stateOf_error] at h1
      rw [stateOf_error]
      exact h1
    | ok rs1 =>
      rw [sendLoop_cons_ok cfg tmpl oracle e rest idx rs rs1 hA]
      have h1 := attemptLoop_template_reads cfg tmpl (oracle idx) idx e 3 0 rs
      rw [hA, stateOf_ok] at h1
      have h2 := ih (idx + 1) rs1
      omega

theorem attemptLoop_msgs_body (cfg : Config) (tmpl : String)
    (oracle : Nat → SendResult) (idx : Nat) (email : String) :
    ∀ fuel attempt rs, (∀ m ∈ rs.msgs, m.body = tmpl) →
      ∀ m ∈ (stateOf
        (attemptLoop cfg tmpl oracle idx email attempt fuel rs)).msgs,
        m.body = tmpl := by
  intro fuel
  induction fuel with
  | zero => intro attempt rs h; rw [attemptLoop_zero, stateOf_ok]; exact h
  | succ k ih =>
    intro attempt rs hpre
    cases h : oracle attempt with
    | success =>
      rw [attemptLoop_success cfg tmpl oracle idx email attempt k rs h,
        stateOf_ok, afterSuccess_msgs]
      intro m hm
      rcases List.mem_append.mp hm with hm | hm
      · exact hpre m hm
      · simp only [List.mem_singleton] at hm
        rw [hm]
        rfl
    | disconnected =>
      cases k with
      | zero =>
        rw [attemptLoop_disc_last cfg tmpl oracle idx email attempt rs h,
          stateOf_error, attemptPrefix_msgs]
        intro m hm
        rcases List.mem_append.mp hm with hm | hm
        · exact hpre m hm
        · simp only [List.mem_singleton] at hm
          rw [hm]
          rfl
      | succ j =>
        rw [attemptLoop_disc_retry cfg tmpl oracle idx email attempt (j + 1)
          rs (Nat.succ_pos j) h]
        apply ih
        rw [afterReconnect_msgs]
        intro m hm
        rcases List.mem_append.mp hm with hm | hm
        · exact hpre m hm
        · simp only [List.mem_singleton] at hm
          rw [hm]
          rfl
    | otherError msg =>
      rw [attemptLoop_other cfg tmpl oracle idx email attempt k msg rs h,
        stateOf_ok, afterOtherError_msgs]
      intro m hm
      rcases List.mem_append.mp hm with hm | hm
      · exact hpre m hm
      · simp only [List.mem_singleton] at hm
        rw [hm]
        rfl

theorem sendLoop_msgs_body (cfg : Config) (tmpl : String)
    (oracle : Nat → Nat → SendResult) :
    ∀ recipients idx rs, (∀ m ∈ rs.msgs, m.body = tmpl) →
      ∀ m ∈ (stateOf (sendLoop cfg tmpl oracle recipients idx rs)).msgs,
        m.body = tmpl := by
  intro recipients
  induction recipients with
  | nil => intro idx rs h; exact h
  | cons e rest ih =>
    intro idx rs hpre
    cases hA : attemptLoop cfg tmpl (oracle idx) idx e 0 3 rs with
    | error rs1 =>
      rw [sendLoop_cons_error cfg tmpl oracle e rest idx rs rs1 hA,
        stateOf_error]
      have h1 := attemptLoop_msgs_body cfg tmpl (oracle idx) idx e 3 0 rs hpre
      rw [hA, stateOf_error] at h1
      exact h1
    | ok rs1 =>
      rw [sendLoop_cons_ok cfg tmpl oracle e rest idx rs rs1 hA]
      have h1 := attemptLoop_msgs_body cfg tmpl (oracle idx) idx e 3 0 rs hpre
      rw [hA, stateOf_ok] at h1
      exact ih (idx + 1) rs1 h1



theorem rate_limit_writes_bound (cfg : RateLimitCfg) (rs : RunState) (b : Nat)
    (h : ∀ x ∈ rs.sc_writes, x ≤ b) :
    ∀ x ∈ (rate_limit cfg rs).sc_writes, x ≤ b := by
  rw [rate_limit_sc_writes]
  split
  · intro x hx
    rcases List.mem_append.mp hx with hx | hx
    · exact h x hx
    · simp only [List.mem_singleton] at hx
      omega
  · exact h

theorem attemptLoop_sc_bound (cfg : Config) (tmpl : String)
    (oracle : Nat → SendResult) (idx : Nat) (email : String)
    (hepb : 1 ≤ cfg.rate_limit.emails_per_batch) :
    ∀ fuel attempt rs,
      (∀ x ∈ rs.sc_writes, x ≤ cfg.rate_limit.emails_per_batch) →
      rs.sent_count ≤ cfg.rate_limit.emails_per_batch →
      ((∀ x ∈ (stateOf (attemptLoop cfg tmpl oracle idx email attempt fuel
           rs)).sc_writes, x ≤ cfg.rate_limit.emails_per_batch) ∧
        (stateOf (attemptLoop cfg tmpl oracle idx email attempt fuel
           rs)).sent_count ≤ cfg.rate_limit.emails_per_batch) := by
  intro fuel
  induction fuel with
  | zero =>
    intro attempt rs hw hs
    rw [attemptLoop_zero, stateOf_ok]
    exact ⟨hw, hs⟩
  | succ k ih =>
    intro attempt rs hw hs
    have hrlw := rate_limit_writes_bound cfg.rate_limit rs
      cfg.rate_limit.emails_per_batch hw
    have hrls := rate_limit_sc_lt cfg.rate_limit rs hepb
    cases h : oracle attempt with
    | success =>
      rw [attemptLoop_success cfg tmpl oracle idx email attempt k rs h,
        stateOf_ok]
      constructor
      · rw [afterSuccess_sc_writes]
        intro x hx
        rcases List.mem_append.mp hx with hx | hx
        · exact hrlw x hx
        · simp only [List.mem_singleton] at hx
          omega
      · rw [afterSuccess_sent_count]
        omega
    | disconnected =>
      cases k with
      | zero =>
        rw [attemptLoop_disc_last cfg tmpl oracle idx email attempt rs h,
          stateOf_error]
        constructor
        · rw [attemptPrefix_sc_writes]
          exact hrlw
        · rw [attemptPrefix_sent_count]
          omega
      | succ j =>
        rw [attemptLoop_disc_retry cfg tmpl oracle idx email attempt (j + 1)
          rs (Nat.succ_pos j) h]
        apply ih
        · rw [afterReconnect_sc_writes]
          exact hrlw
        · rw [afterReconnect_sent_count]
          omega
    | otherError m =>
      rw [attemptLoop_other cfg tmpl oracle idx email attempt k m rs h,
        stateOf_ok]
      constructor
      · rw [afterOtherError_sc_writes]
        exact hrlw
      · rw [afterOtherError_sent_count]
        omega

theorem sendLoop_sc_bound (cfg : Config) (tmpl : String)
    (oracle : Nat → Nat → SendResult)
    (hepb : 1 ≤ cfg.rate_limit.emails_per_batch) :
    ∀ recipients idx rs,
      (∀ x ∈ rs.sc_writes, x ≤ cfg.rate_limit.emails_per_batch) →
      rs.sent_count ≤ cfg.rate_limit.emails_per_batch →
      ((∀ x ∈ (stateOf (sendLoop cfg tmpl oracle recipients idx
           rs)).sc_writes, x ≤ cfg.rate_limit.emails_per_batch) ∧
        (stateOf (sendLoop cfg tmpl oracle recipients idx
           rs)).sent_count ≤ cfg.rate_limit.emails_per_batch) := by
  intro recipients
  induction recipients with
  | nil =>
    intro idx rs hw hs
    rw [sendLoop_nil, stateOf_ok]
    exact ⟨hw, hs⟩
  | cons e rest ih =>
    intro idx rs hw hs
    cases hA : attemptLoop cfg tmpl (oracle idx) idx e 0 3 rs with
    | error rs1 =>
      rw [sendLoop_cons_error cfg tmpl oracle e rest idx rs rs1 hA,
        stateOf_error]
      have h1 := attemptLoop_sc_bound cfg tmpl (oracle idx) idx e hepb 3 0 rs
        hw hs
      rw [hA, stateOf_error] at h1
      exact h1
    | ok rs1 =>
      rw [sendLoop_cons_ok cfg tmpl oracle e rest idx rs rs1 hA]
      have h1 := attemptLoop_sc_bound cfg tmpl (oracle idx) idx e hepb 3 0 rs
        hw hs
      rw [hA, stateOf_ok] at h1
      exact ih (idx + 1) rs1 h1.1 h1.2

theorem attemptLoop_no_success_frame (cfg : Config) (tmpl : String)
    (oracle : Nat → SendResult) (idx : Nat) (email : String)
    (hns : ∀ a, oracle a ≠ SendResult.success) :
    ∀ fuel attempt rs,
      (stateOf (attemptLoop cfg tmpl oracle idx email attempt fuel
          rs)).last_send_time = rs.last_send_time ∧
      (stateOf (attemptLoop cfg tmpl oracle idx email attempt fuel
          rs)).sent_count ≤ rs.sent_count := by
  intro fuel
  induction fuel with
  | zero =>
    intro attempt rs
    rw [attemptLoop_zero, stateOf_ok]
    exact ⟨rfl, Nat.le_refl _⟩
  | succ k ih =>
    intro attempt rs
    cases h : oracle attempt with
    | success => exact absurd h (hns attempt)
    | disconnected =>
      cases k with
      | zero =>
        rw [attemptLoop_disc_last cfg tmpl oracle idx email attempt rs h,
          stateOf_error]
        refine ⟨attemptPrefix_last_send_time cfg tmpl idx email attempt rs, ?_⟩
        rw [attemptPrefix_sent_count]
        exact rate_limit_sc_le cfg.rate_limit rs
      | succ j =>
        rw [attemptLoop_disc_retry cfg tmpl oracle idx email attempt (j + 1)
          rs (Nat.succ_pos j) h]
        have hih := ih (attempt + 1) (afterReconnect cfg tmpl idx email attempt rs)
        rw [afterReconnect_last_send_time, afterReconnect_sent_count] at hih
        exact ⟨hih.1, Nat.le_trans hih.2 (rate_limit_sc_le cfg.rate_limit rs)⟩
    | otherError m =>
      rw [attemptLoop_other cfg tmpl oracle idx email attempt k m rs h,
        stateOf_ok]
      refine ⟨afterOtherError_last_send_time cfg tmpl idx email attempt m rs, ?_⟩
      rw [afterOtherError_sent_count]
      exact rate_limit_sc_le cfg.rate_limit rs



/-- C1: for every recipient list, if send_newsletters completes without a
fatal abort, the results file contains exactly one outcome row per
recipient after the header, with that recipient's email, in input order,
with no duplicates and no omissions (the row emails are exactly the input
list, which also fixes the row count to N). -/
theorem results_one_row_per_recipient (cfg : Config)
    (preflight_ok main_connect_ok : Bool) (tmpl : String)
    (recipients : List String) (oracle : Nat → Nat → SendResult) (t0 : ℚ)
    (rs : RunState)
    (hdone : send_newsletters cfg preflight_ok main_connect_ok tmpl
      recipients oracle t0 = RunOutcome.completed rs) :
    rs.rows.map Row.email = recipients ∧
      rs.rows.length = recipients.length := by
  simp only [send_newsletters] at hdone
  by_cases hp : preflight_ok = false
  · rw [if_pos hp] at hdone
    cases hdone
  · rw [if_neg hp] at hdone
    by_cases hm : main_connect_ok = false
    · rw [if_pos hm] at hdone
      cases hdone
    · rw [if_neg hm] at hdone
      cases hS : sendLoop cfg tmpl oracle recipients 0 (initRunState t0) with
      | error rs1 =>
        rw [hS] at hdone
        cases hdone
      | ok rs1 =>
        rw [hS] at hdone
        have hrs : rs1 = rs := by injection hdone
        subst hrs
        have h1 := sendLoop_ok_emails cfg tmpl oracle recipients 0
          (initRunState t0) rs1 hS
        have h0 : (initRunState t0).rows = [] := rfl
        rw [h0] at h1
        simp only [List.map_nil, List.nil_append] at h1
        refine ⟨h1, ?_⟩
        have := congrArg List.length h1
        simpa using this

/-- Witness for the C1 theorem at a concrete two-recipient run in which
every send succeeds. -/
theorem results_one_row_per_recipient_witness :
    (send_newsletters
        { rate_limit :=
            { emails_per_batch := 10, batch_delay := 0,
              delay_between_emails := 0 },
          subject := "s", from_addr := "f@x.com" } true true "T"
        ["a@x.com", "b@x.com"] (fun _ _ => SendResult.success) 5 =
      RunOutcome.completed
        { sent_count := 2, last_send_time := 5, now := 5,
          rows := [⟨"a@x.com", "success", ""⟩, ⟨"b@x.com", "success", ""⟩],
          trace := [Event.rateLimitCheck, Event.sendAttempt 0 0,
            Event.rateLimitCheck, Event.sendAttempt 1 0],
          reconnects := 0, template_reads := 3,
          msgs := [⟨"a@x.com", "s", "f@x.com", "T"⟩,
            ⟨"b@x.com", "s", "f@x.com", "T"⟩],
          sc_writes := [0, 1, 2] }) ∧
    (RunState.rows
        { sent_count := 2, last_send_time := 5, now := 5,
          rows := [⟨"a@x.com", "success", ""⟩, ⟨"b@x.com", "success", ""⟩],
          trace := [Event.rateLimitCheck, Event.sendAttempt 0 0,
            Event.rateLimitCheck, Event.sendAttempt 1 0],
          reconnects := 0, template_reads := 3,
          msgs := [⟨"a@x.com", "s", "f@x.com", "T"⟩,
            ⟨"b@x.com", "s", "f@x.com", "T"⟩],
          sc_writes := [0, 1, 2] }).map Row.email =
      ["a@x.com", "b@x.com"] := by
  have hrun : send_newsletters
      { rate_limit :=
          { emails_per_batch := 10, batch_delay := 0,
            delay_between_emails := 0 },
        subject := "s", from_addr := "f@x.com" } true true "T"
      ["a@x.com", "b@x.com"] (fun _ _ => SendResult.success) 5 =
    RunOutcome.completed
      { sent_count := 2, last_send_time := 5, now := 5,
        rows := [⟨"a@x.com", "success", ""⟩, ⟨"b@x.com", "success", ""⟩],
        trace := [Event.rateLimitCheck, Event.sendAttempt 0 0,
          Event.rateLimitCheck, Event.sendAttempt 1 0],
        reconnects := 0, template_reads := 3,
        msgs := [⟨"a@x.com", "s", "f@x.com", "T"⟩,
          ⟨"b@x.com", "s", "f@x.com", "T"⟩],
        sc_writes := [0, 1, 2] } := by
    norm_num [send_newsletters, sendLoop, attemptLoop, afterSuccess,
      attemptPrefix, rate_limit, buildMsg, initRunState, countdownSleep]
  exact ⟨hrun, (results_one_row_per_recipient _ _ _ _ _ _ _ _ hrun).1⟩

/-- C3: the rate limiter pauses batch_delay seconds and resets sent_count
to 0 when sent_count has reached emails_per_batch; otherwise it pauses
exactly the remaining delta when less than delay_between_emails elapsed
since the last send; otherwise it does not pause.  The clock `now` advances
by exactly the pause. -/
theorem rate_limit_three_cases (cfg : RateLimitCfg) (rs : RunState) :
    (cfg.emails_per_batch ≤ rs.sent_count →
      (rate_limit cfg rs).now = rs.now + (cfg.batch_delay : ℚ) ∧
      (rate_limit cfg rs).sent_count = 0) ∧
    (rs.sent_count < cfg.emails_per_batch →
      rs.now - rs.last_send_time < cfg.delay_between_emails →
      (rate_limit cfg rs).now =
        rs.now + (cfg.delay_between_emails - (rs.now - rs.last_send_time)) ∧
      (rate_limit cfg rs).sent_count = rs.sent_count) ∧
    (rs.sent_count < cfg.emails_per_batch →
      ¬(rs.now - rs.last_send_time < cfg.delay_between_emails) →
      (rate_limit cfg rs).now = rs.now ∧
      (rate_limit cfg rs).sent_count = rs.sent_count) := by
  refine ⟨fun h => ⟨?_, ?_⟩, fun h1 h2 => ⟨?_, ?_⟩, fun h1 h2 => ⟨?_, ?_⟩⟩
  · rw [rate_limit_now]
    simp [shouldPause, pauseOf, h]
  · rw [rate_limit_sent_count, if_pos h]
  · rw [rate_limit_now]
    simp [shouldPause, pauseOf, Nat.not_le.mpr h1, h2]
  · rw [rate_limit_sent_count, if_neg (Nat.not_le.mpr h1)]
  · rw [rate_limit_now]
    simp [shouldPause, pauseOf, Nat.not_le.mpr h1, h2]
  · rw [rate_limit_sent_count, if_neg (Nat.not_le.mpr h1)]

/-- Witness for the C3 theorem: the batch-pause case at sent_count = 2 =
emails_per_batch, and the short-pause case 1 second after the previous
send with a 3 second minimum delay. -/
theorem rate_limit_three_cases_witness :
    ((rate_limit
        { emails_per_batch := 2, batch_delay := 7,
          delay_between_emails := 3 }
        { sent_count := 2, last_send_time := 0, now := 10, rows := [],
          trace := [], reconnects := 0, template_reads := 0, msgs := [],
          sc_writes := [] }).now = 10 + (7 : ℚ) ∧
      (rate_limit
        { emails_per_batch := 2, batch_delay := 7,
          delay_between_emails := 3 }
        { sent_count := 2, last_send_time := 0, now := 10, rows := [],
          trace := [], reconnects := 0, template_reads := 0, msgs := [],
          sc_writes := [] }).sent_count = 0) ∧
    ((rate_limit
        { emails_per_batch := 2, batch_delay := 7,
          delay_between_emails := 3 }
        { sent_count := 1, last_send_time := 9, now := 10, rows := [],
          trace := [], reconnects := 0, template_reads := 0, msgs := [],
          sc_writes := [] }).now = 10 + ((3 : ℚ) - (10 - 9)) ∧
      (rate_limit
        { emails_per_batch := 2, batch_delay := 7,
          delay_between_emails := 3 }
        { sent_count := 1, last_send_time := 9, now := 10, rows := [],
          trace := [], reconnects := 0, template_reads := 0, msgs := [],
          sc_writes := [] }).sent_count = 1) := by
  constructor
  · exact (rate_limit_three_cases _ _).1 (by decide)
  · exact (rate_limit_three_cases _ _).2.1 (by decide) (by norm_num)

/-- C5: when a send attempt succeeds, the attempt loop stops immediately
with the row (email, success, "") appended, sent_count incremented by one
from its value after the rate-limit check, last_send_time set to the
current clock, exactly one additional send attempt consumed, and the
recipient loop then advances to the next recipient. -/
theorem success_records_and_advances (cfg : Config) (tmpl : String)
    (oracle : Nat → SendResult) (idx : Nat) (email : String)
    (attempt fuel : Nat) (rs : RunState)
    (h : oracle attempt = SendResult.success) :
    attemptLoop cfg tmpl oracle idx email attempt (fuel + 1) rs =
      Except.ok (afterSuccess cfg tmpl idx email attempt rs) ∧
    (afterSuccess cfg tmpl idx email attempt rs).rows =
      rs.rows ++ [⟨email, "success", ""⟩] ∧
    (afterSuccess cfg tmpl idx email attempt rs).sent_count =
      (rate_limit cfg.rate_limit rs).sent_count + 1 ∧
    (afterSuccess cfg tmpl idx email attempt rs).last_send_time =
      (afterSuccess cfg tmpl idx email attempt rs).now ∧
    countSends (afterSuccess cfg tmpl idx email attempt rs).trace =
      countSends rs.trace + 1 ∧
    (∀ (oracle2 : Nat → Nat → SendResult) (rest : List String)
        (rs0 st : RunState),
      attemptLoop cfg tmpl (oracle2 idx) idx email 0 3 rs0 = Except.ok st →
      sendLoop cfg tmpl oracle2 (email :: rest) idx rs0 =
        sendLoop cfg tmpl oracle2 rest (idx + 1) st) := by
  refine ⟨attemptLoop_success cfg tmpl oracle idx email attempt fuel rs h,
    afterSuccess_rows cfg tmpl idx email attempt rs,
    afterSuccess_sent_count cfg tmpl idx email attempt rs,
    rfl,
    ?_,
    fun oracle2 rest rs0 st hA =>
      sendLoop_cons_ok cfg tmpl oracle2 email rest idx rs0 st hA⟩
  rw [afterSuccess_trace, countSends_append, countSends_pair]

/-- Witness for the C5 theorem at a concrete successful first attempt. -/
theorem success_records_and_advances_witness :
    attemptLoop
        { rate_limit :=
            { emails_per_batch := 10, batch_delay := 0,
              delay_between_emails := 0 },
          subject := "s", from_addr := "f@x.com" } "T"
        (fun _ => SendResult.success) 0 "a@x.com" 0 (2 + 1)
        (initRunState 5) =
      Except.ok (afterSuccess
        { rate_limit :=
            { emails_per_batch := 10, batch_delay := 0,
              delay_between_emails := 0 },
          subject := "s", from_addr := "f@x.com" } "T" 0 "a@x.com" 0
        (initRunState 5)) ∧
    (afterSuccess
        { rate_limit :=
            { emails_per_batch := 10, batch_delay := 0,
              delay_between_emails := 0 },
          subject := "s", from_addr := "f@x.com" } "T" 0 "a@x.com" 0
        (initRunState 5)).rows =
      (initRunState 5).rows ++ [⟨"a@x.com", "success", ""⟩] := by
  have h := success_records_and_advances
    { rate_limit :=
        { emails_per_batch := 10, batch_delay := 0,
          delay_between_emails := 0 },
      subject := "s", from_addr := "f@x.com" } "T"
    (fun _ => SendResult.success) 0 "a@x.com" 0 2 (initRunState 5) rfl
  exact ⟨h.1, h.2.1⟩

/-- C6: if authentication fails during the pre-flight connection check,
send_newsletters aborts before the results file is created: the outcome is
preflightFailure, no results file (hence zero outcome rows) exists, and no
recipient is processed. -/
theorem preflight_failure_no_results_file (cfg : Config)
    (main_connect_ok : Bool) (tmpl : String) (recipients : List String)
    (oracle : Nat → Nat → SendResult) (t0 : ℚ) :
    send_newsletters cfg false main_connect_ok tmpl recipients oracle t0 =
      RunOutcome.preflightFailure ∧
    rowsWritten (send_newsletters cfg false main_connect_ok tmpl recipients
      oracle t0) = none ∧
    finalState (send_newsletters cfg false main_connect_ok tmpl recipients
      oracle t0) = none := by
  refine ⟨?_, ?_, ?_⟩ <;> simp [send_newsletters, rowsWritten, finalState]



/-- C2: per recipient at most 3 send attempts are made; the attempt loop
propagates a fatal error exactly when all three attempts disconnect; a
disconnection with attempts remaining leads to a 5-second wait, a
reconnect (fresh session, re-authentication, reconnect counter up by one)
and a retry of the same recipient at the next attempt index; and a
propagated disconnection aborts the whole run, not just that recipient. -/
theorem retry_policy_bounded_and_fatal (cfg : Config) (tmpl : String) :
    (∀ (oracle : Nat → SendResult) (idx : Nat) (email : String)
        (rs : RunState),
      countSends (stateOf
          (attemptLoop cfg tmpl oracle idx email 0 3 rs)).trace ≤
        countSends rs.trace + 3) ∧
    (∀ (oracle : Nat → SendResult) (idx : Nat) (email : String)
        (rs : RunState),
      errored (attemptLoop cfg tmpl oracle idx email 0 3 rs) = true ↔
        (oracle 0 = SendResult.disconnected ∧
         oracle 1 = SendResult.disconnected ∧
         oracle 2 = SendResult.disconnected)) ∧
    (∀ (oracle : Nat → SendResult) (idx : Nat) (email : String)
        (attempt fuel : Nat) (rs : RunState), 0 < fuel →
      oracle attempt = SendResult.disconnected →
      attemptLoop cfg tmpl oracle idx email attempt (fuel + 1) rs =
        attemptLoop cfg tmpl oracle idx email (attempt + 1) fuel
          (afterReconnect cfg tmpl idx email attempt rs) ∧
      (afterReconnect cfg tmpl idx email attempt rs).now =
        (rate_limit cfg.rate_limit rs).now + 5 ∧
      (afterReconnect cfg tmpl idx email attempt rs).reconnects =
        rs.reconnects + 1) ∧
    (∀ (oracle : Nat → Nat → SendResult) (idx : Nat) (email : String)
        (rest : List String) (rs rs1 : RunState),
      attemptLoop cfg tmpl (oracle idx) idx email 0 3 rs =
        Except.error rs1 →
      sendLoop cfg tmpl oracle (email :: rest) idx rs =
        Except.error rs1) ∧
    (∀ (oracle : Nat → Nat → SendResult) (recipients : List String)
        (t0 : ℚ) (rs1 : RunState),
      sendLoop cfg tmpl oracle recipients 0 (initRunState t0) =
        Except.error rs1 →
      send_newsletters cfg true true tmpl recipients oracle t0 =
        RunOutcome.aborted rs1) := by
  refine ⟨?_, ?_, ?_, ?_, ?_⟩
  · intro oracle idx email rs
    exact attemptLoop_sends_le cfg tmpl oracle idx email 3 0 rs
  · intro oracle idx email rs
    exact attemptLoop_errored_iff cfg tmpl oracle idx email rs
  · intro oracle idx email attempt fuel rs hf h
    exact ⟨attemptLoop_disc_retry cfg tmpl oracle idx email attempt fuel rs
      hf h,
      afterReconnect_now cfg tmpl idx email attempt rs,
      afterReconnect_reconnects cfg tmpl idx email attempt rs⟩
  · intro oracle idx email rest rs rs1 hA
    exact sendLoop_cons_error cfg tmpl oracle email rest idx rs rs1 hA
  · intro oracle recipients t0 rs1 hS
    simp [send_newsletters, hS]

/-- Witness for the C2 theorem: a run with one recipient whose three
attempts all disconnect makes the attempt loop error and the whole run
abort with no outcome row. -/
theorem retry_policy_bounded_and_fatal_witness :
    (errored (attemptLoop
        { rate_limit :=
            { emails_per_batch := 10, batch_delay := 0,
              delay_between_emails := 0 },
          subject := "s", from_addr := "f@x.com" } "T"
        (fun _ => SendResult.disconnected) 0 "a@x.com" 0 3
        (initRunState 5)) = true) ∧
    send_newsletters
        { rate_limit :=
            { emails_per_batch := 10, batch_delay := 0,
              delay_between_emails := 0 },
          subject := "s", from_addr := "f@x.com" } true true "T"
        ["a@x.com"] (fun _ _ => SendResult.disconnected) 5 =
      RunOutcome.aborted
        { sent_count := 0, last_send_time := 0, now := 15, rows := [],
          trace := [Event.rateLimitCheck, Event.sendAttempt 0 0,
            Event.rateLimitCheck, Event.sendAttempt 0 1,
            Event.rateLimitCheck, Event.sendAttempt 0 2],
          reconnects := 2, template_reads := 4,
          msgs := [⟨"a@x.com", "s", "f@x.com", "T"⟩,
            ⟨"a@x.com", "s", "f@x.com", "T"⟩,
            ⟨"a@x.com", "s", "f@x.com", "T"⟩],
          sc_writes := [0] } := by
  have h := retry_policy_bounded_and_fatal
    { rate_limit :=
        { emails_per_batch := 10, batch_delay := 0,
          delay_between_emails := 0 },
      subject := "s", from_addr := "f@x.com" } "T"
  constructor
  · exact (h.2.1 (fun _ => SendResult.disconnected) 0 "a@x.com"
      (initRunState 5)).mpr ⟨rfl, rfl, rfl⟩
  · apply h.2.2.2.2 (fun _ _ => SendResult.disconnected) ["a@x.com"] 5
    norm_num [sendLoop, attemptLoop, afterReconnect, attemptPrefix,
      rate_limit, buildMsg, initRunState, countdownSleep]

/-- C4 counterexample: the claim requires a non-empty error message, but
the code records str(e) verbatim, which is empty when the raised
exception's message is empty: this concrete failed recipient gets the
outcome row (a@x.com, failed, "") whose error message is empty. -/
theorem failed_row_message_can_be_empty :
    rowsWritten (send_newsletters
        { rate_limit :=
            { emails_per_batch := 10, batch_delay := 0,
              delay_between_emails := 0 },
          subject := "s", from_addr := "f@x.com" } true true "T"
        ["a@x.com"] (fun _ _ => SendResult.otherError "") 5) =
      some [⟨"a@x.com", "failed", ""⟩] ∧
    ¬ (∀ r ∈ [(⟨"a@x.com", "failed", ""⟩ : Row)], r.error_message ≠ "") := by
  constructor
  · norm_num [send_newsletters, sendLoop, attemptLoop, afterOtherError,
      attemptPrefix, rate_limit, buildMsg, initRunState, countdownSleep,
      rowsWritten]
  · simp

/-- C4 (amended): when a send attempt fails with a non-disconnection
error, exactly one outcome row (email, failed, errorMessage) is recorded,
where errorMessage is the raised exception's message string (possibly
empty); no further attempt is made for that recipient regardless of the
remaining retry budget, and the recipient loop advances to the next
recipient. -/
theorem other_error_single_row_no_retry (cfg : Config) (tmpl : String)
    (oracle : Nat → SendResult) (idx : Nat) (email : String)
    (attempt fuel : Nat) (m : String) (rs : RunState)
    (h : oracle attempt = SendResult.otherError m) :
    attemptLoop cfg tmpl oracle idx email attempt (fuel + 1) rs =
      Except.ok (afterOtherError cfg tmpl idx email attempt m rs) ∧
    (afterOtherError cfg tmpl idx email attempt m rs).rows =
      rs.rows ++ [⟨email, "failed", m⟩] ∧
    countSends (afterOtherError cfg tmpl idx email attempt m rs).trace =
      countSends rs.trace + 1 ∧
    (∀ (oracle2 : Nat → Nat → SendResult) (rest : List String)
        (rs0 st : RunState),
      attemptLoop cfg tmpl (oracle2 idx) idx email 0 3 rs0 =
        Except.ok st →
      sendLoop cfg tmpl oracle2 (email :: rest) idx rs0 =
        sendLoop cfg tmpl oracle2 rest (idx + 1) st) := by
  refine ⟨attemptLoop_other cfg tmpl oracle idx email attempt fuel m rs h,
    afterOtherError_rows cfg tmpl idx email attempt m rs,
    ?_,
    fun oracle2 rest rs0 st hA =>
      sendLoop_cons_ok cfg tmpl oracle2 email rest idx rs0 st hA⟩
  rw [afterOtherError_trace, countSends_append, countSends_pair]

/-- Witness for the amended C4 theorem at a concrete failure with message
"boom" and a full retry budget remaining. -/
theorem other_error_single_row_no_retry_witness :
    attemptLoop
        { rate_limit :=
            { emails_per_batch := 10, batch_delay := 0,
              delay_between_emails := 0 },
          subject := "s", from_addr := "f@x.com" } "T"
        (fun _ => SendResult.otherError "boom") 0 "a@x.com" 0 (2 + 1)
        (initRunState 5) =
      Except.ok (afterOtherError
        { rate_limit :=
            { emails_per_batch := 10, batch_delay := 0,
              delay_between_emails := 0 },
          subject := "s", from_addr := "f@x.com" } "T" 0 "a@x.com" 0
        "boom" (initRunState 5)) ∧
    (afterOtherError
        { rate_limit :=
            { emails_per_batch := 10, batch_delay := 0,
              delay_between_emails := 0 },
          subject := "s", from_addr := "f@x.com" } "T" 0 "a@x.com" 0
        "boom" (initRunState 5)).rows =
      (initRunState 5).rows ++ [⟨"a@x.com", "failed", "boom"⟩] := by
  have h := other_error_single_row_no_retry
    { rate_limit :=
        { emails_per_batch := 10, batch_delay := 0,
          delay_between_emails := 0 },
      subject := "s", from_addr := "f@x.com" } "T"
    (fun _ => SendResult.otherError "boom") 0 "a@x.com" 0 2 "boom"
    (initRunState 5) rfl
  exact ⟨h.1, h.2.1⟩



theorem finalState_cases (cfg : Config) (preflight_ok main_connect_ok : Bool)
    (tmpl : String) (recipients : List String)
    (oracle : Nat → Nat → SendResult) (t0 : ℚ) (rs : RunState)
    (h : finalState (send_newsletters cfg preflight_ok main_connect_ok tmpl
      recipients oracle t0) = some rs) :
    rs = initRunState t0 ∨
      rs = stateOf (sendLoop cfg tmpl oracle recipients 0
        (initRunState t0)) := by
  simp only [send_newsletters] at h
  by_cases hp : preflight_ok = false
  · rw [if_pos hp] at h
    simp [finalState] at h
  · rw [if_neg hp] at h
    by_cases hm : main_connect_ok = false
    · rw [if_pos hm] at h
      simp only [finalState, Option.some.injEq] at h
      exact Or.inl h.symm
    · rw [if_neg hm] at h
      cases hS : sendLoop cfg tmpl oracle recipients 0 (initRunState t0) with
      | error rs1 =>
        rw [hS] at h
        simp only [finalState, Option.some.injEq] at h
        right
        rw [stateOf_error]
        exact h.symm
      | ok rs1 =>
        rw [hS] at h
        simp only [finalState, Option.some.injEq] at h
        right
        rw [stateOf_ok]
        exact h.symm

/-- C7 counterexample: the claim says the template is loaded exactly once
per run with no per-recipient read, but a completed single-recipient run
performs two reads of the template file: the initial unused
_read_template call plus one read inside the attempt loop (lines
141-142). -/
theorem template_single_load_is_false :
    finalState (send_newsletters
        { rate_limit :=
            { emails_per_batch := 10, batch_delay := 0,
              delay_between_emails := 0 },
          subject := "s", from_addr := "f@x.com" } true true "T"
        ["a@x.com"] (fun _ _ => SendResult.success) 5) =
      some
        { sent_count := 1, last_send_time := 5, now := 5,
          rows := [⟨"a@x.com", "success", ""⟩],
          trace := [Event.rateLimitCheck, Event.sendAttempt 0 0],
          reconnects := 0, template_reads := 2,
          msgs := [⟨"a@x.com", "s", "f@x.com", "T"⟩],
          sc_writes := [0, 1] } ∧
    (RunState.template_reads
        { sent_count := 1, last_send_time := 5, now := 5,
          rows := [⟨"a@x.com", "success", ""⟩],
          trace := [Event.rateLimitCheck, Event.sendAttempt 0 0],
          reconnects := 0, template_reads := 2,
          msgs := [⟨"a@x.com", "s", "f@x.com", "T"⟩],
          sc_writes := [0, 1] }) ≠ 1 := by
  constructor
  · norm_num [send_newsletters, sendLoop, attemptLoop, afterSuccess,
      attemptPrefix, rate_limit, buildMsg, initRunState, countdownSleep,
      finalState, stateOf]
  · decide

/-- C7 (amended): the template file is read once by the initial (unused)
_read_template call and then once more per send attempt, so any run that
reaches the send loop performs 1 + (number of send attempts) template
reads; the body of every message built is the template file content,
verbatim and identical for every recipient, with no substitution. -/
theorem template_read_per_attempt_same_body (cfg : Config)
    (preflight_ok main_connect_ok : Bool) (tmpl : String)
    (recipients : List String) (oracle : Nat → Nat → SendResult) (t0 : ℚ)
    (rs : RunState)
    (h : finalState (send_newsletters cfg preflight_ok main_connect_ok tmpl
      recipients oracle t0) = some rs) :
    rs.template_reads = 1 + countSends rs.trace ∧
      ∀ m ∈ rs.msgs, m.body = tmpl := by
  rcases finalState_cases cfg preflight_ok main_connect_ok tmpl recipients
    oracle t0 rs h with h1 | h1
  · subst h1
    exact ⟨rfl, by intro m hm; simp [initRunState] at hm⟩
  · subst h1
    constructor
    · have h2 := sendLoop_template_reads cfg tmpl oracle recipients 0
        (initRunState t0)
      have h3 : countSends (initRunState t0).trace = 0 := rfl
      have h4 : (initRunState t0).template_reads = 1 := rfl
      omega
    · apply sendLoop_msgs_body cfg tmpl oracle recipients 0 (initRunState t0)
      intro m hm
      simp [initRunState] at hm

/-- Witness for the amended C7 theorem at a completed two-recipient run:
3 template reads, 2 send attempts, both message bodies equal to the
template. -/
theorem template_read_per_attempt_same_body_witness :
    finalState (send_newsletters
        { rate_limit :=
            { emails_per_batch := 10, batch_delay := 0,
              delay_between_emails := 0 },
          subject := "s", from_addr := "f@x.com" } true true "T"
        ["a@x.com", "b@x.com"] (fun _ _ => SendResult.success) 5) =
      some
        { sent_count := 2, last_send_time := 5, now := 5,
          rows := [⟨"a@x.com", "success", ""⟩, ⟨"b@x.com", "success", ""⟩],
          trace := [Event.rateLimitCheck, Event.sendAttempt 0 0,
            Event.rateLimitCheck, Event.sendAttempt 1 0],
          reconnects := 0, template_reads := 3,
          msgs := [⟨"a@x.com", "s", "f@x.com", "T"⟩,
            ⟨"b@x.com", "s", "f@x.com", "T"⟩],
          sc_writes := [0, 1, 2] } ∧
    (RunState.template_reads
        { sent_count := 2, last_send_time := 5, now := 5,
          rows := [⟨"a@x.com", "success", ""⟩, ⟨"b@x.com", "success", ""⟩],
          trace := [Event.rateLimitCheck, Event.sendAttempt 0 0,
            Event.rateLimitCheck, Event.sendAttempt 1 0],
          reconnects := 0, template_reads := 3,
          msgs := [⟨"a@x.com", "s", "f@x.com", "T"⟩,
            ⟨"b@x.com", "s", "f@x.com", "T"⟩],
          sc_writes := [0, 1, 2] }) =
      1 + countSends (RunState.trace
        { sent_count := 2, last_send_time := 5, now := 5,
          rows := [⟨"a@x.com", "success", ""⟩, ⟨"b@x.com", "success", ""⟩],
          trace := [Event.rateLimitCheck, Event.sendAttempt 0 0,
            Event.rateLimitCheck, Event.sendAttempt 1 0],
          reconnects := 0, template_reads := 3,
          msgs := [⟨"a@x.com", "s", "f@x.com", "T"⟩,
            ⟨"b@x.com", "s", "f@x.com", "T"⟩],
          sc_writes := [0, 1, 2] }) := by
  have hrun : finalState (send_newsletters
      { rate_limit :=
          { emails_per_batch := 10, batch_delay := 0,
            delay_between_emails := 0 },
        subject := "s", from_addr := "f@x.com" } true true "T"
      ["a@x.com", "b@x.com"] (fun _ _ => SendResult.success) 5) =
    some
      { sent_count := 2, last_send_time := 5, now := 5,
        rows := [⟨"a@x.com", "success", ""⟩, ⟨"b@x.com", "success", ""⟩],
        trace := [Event.rateLimitCheck, Event.sendAttempt 0 0,
          Event.rateLimitCheck, Event.sendAttempt 1 0],
        reconnects := 0, template_reads := 3,
        msgs := [⟨"a@x.com", "s", "f@x.com", "T"⟩,
          ⟨"b@x.com", "s", "f@x.com", "T"⟩],
        sc_writes := [0, 1, 2] } := by
    norm_num [send_newsletters, sendLoop, attemptLoop, afterSuccess,
      attemptPrefix, rate_limit, buildMsg, initRunState, countdownSleep,
      finalState, stateOf]
  exact ⟨hrun,
    (template_read_per_attempt_same_body _ _ _ _ _ _ _ _ hrun).1⟩

/-- C8: in every run that opens the results file, each send attempt in the
trace is immediately preceded by a rate-limiter consultation (this covers
retries: each retry iteration re-runs _rate_limit before its send). -/
theorem every_send_preceded_by_rate_limit (cfg : Config)
    (preflight_ok main_connect_ok : Bool) (tmpl : String)
    (recipients : List String) (oracle : Nat → Nat → SendResult) (t0 : ℚ)
    (rs : RunState)
    (h : finalState (send_newsletters cfg preflight_ok main_connect_ok tmpl
      recipients oracle t0) = some rs) :
    sendsPreceded rs.trace = true := by
  rcases finalState_cases cfg preflight_ok main_connect_ok tmpl recipients
    oracle t0 rs h with h1 | h1
  · subst h1
    rfl
  · subst h1
    exact sendLoop_sendsPreceded cfg tmpl oracle recipients 0
      (initRunState t0) rfl

/-- Witness for the C8 theorem at a run with a retried recipient: the
trace alternates rate-limit checks and send attempts. -/
theorem every_send_preceded_by_rate_limit_witness :
    finalState (send_newsletters
        { rate_limit :=
            { emails_per_batch := 10, batch_delay := 0,
              delay_between_emails := 0 },
          subject := "s", from_addr := "f@x.com" } true true "T"
        ["a@x.com"] (fun _ _ => SendResult.disconnected) 5) =
      some
        { sent_count := 0, last_send_time := 0, now := 15, rows := [],
          trace := [Event.rateLimitCheck, Event.sendAttempt 0 0,
            Event.rateLimitCheck, Event.sendAttempt 0 1,
            Event.rateLimitCheck, Event.sendAttempt 0 2],
          reconnects := 2, template_reads := 4,
          msgs := [⟨"a@x.com", "s", "f@x.com", "T"⟩,
            ⟨"a@x.com", "s", "f@x.com", "T"⟩,
            ⟨"a@x.com", "s", "f@x.com", "T"⟩],
          sc_writes := [0] } ∧
    sendsPreceded
      [Event.rateLimitCheck, Event.sendAttempt 0 0,
        Event.rateLimitCheck, Event.sendAttempt 0 1,
        Event.rateLimitCheck, Event.sendAttempt 0 2] = true := by
  have hrun : finalState (send_newsletters
      { rate_limit :=
          { emails_per_batch := 10, batch_delay := 0,
            delay_between_emails := 0 },
        subject := "s", from_addr := "f@x.com" } true true "T"
      ["a@x.com"] (fun _ _ => SendResult.disconnected) 5) =
    some
      { sent_count := 0, last_send_time := 0, now := 15, rows := [],
        trace := [Event.rateLimitCheck, Event.sendAttempt 0 0,
          Event.rateLimitCheck, Event.sendAttempt 0 1,
          Event.rateLimitCheck, Event.sendAttempt 0 2],
        reconnects := 2, template_reads := 4,
        msgs := [⟨"a@x.com", "s", "f@x.com", "T"⟩,
          ⟨"a@x.com", "s", "f@x.com", "T"⟩,
          ⟨"a@x.com", "s", "f@x.com", "T"⟩],
        sc_writes := [0] } := by
    norm_num [send_newsletters, sendLoop, attemptLoop, afterReconnect,
      attemptPrefix, rate_limit, buildMsg, initRunState, countdownSleep,
      finalState, stateOf]
  exact ⟨hrun,
    every_send_preceded_by_rate_limit _ _ _ _ _ _ _ _ hrun⟩

/-- C9: assuming emails_per_batch ≥ 1, sent_count never exceeds
emails_per_batch: every value ever written to sent_count during the run
(history sc_writes, starting from the 0 of __init__) is at most
emails_per_batch, and so is the final value. -/
theorem sent_count_never_exceeds_batch (cfg : Config)
    (preflight_ok main_connect_ok : Bool) (tmpl : String)
    (recipients : List String) (oracle : Nat → Nat → SendResult) (t0 : ℚ)
    (rs : RunState) (hepb : 1 ≤ cfg.rate_limit.emails_per_batch)
    (h : finalState (send_newsletters cfg preflight_ok main_connect_ok tmpl
      recipients oracle t0) = some rs) :
    (∀ x ∈ rs.sc_writes, x ≤ cfg.rate_limit.emails_per_batch) ∧
      rs.sent_count ≤ cfg.rate_limit.emails_per_batch := by
  rcases finalState_cases cfg preflight_ok main_connect_ok tmpl recipients
    oracle t0 rs h with h1 | h1
  · subst h1
    refine ⟨?_, Nat.zero_le _⟩
    intro x hx
    simp [initRunState] at hx
    omega
  · subst h1
    apply sendLoop_sc_bound cfg tmpl oracle hepb recipients 0
      (initRunState t0)
    · intro x hx
      simp [initRunState] at hx
      omega
    · exact Nat.zero_le _

/-- Witness for the C9 theorem at a completed run with emails_per_batch
equal to 1, in which the batch reset fires: every sent_count write (0, 1,
0) stays at most 1. -/
theorem sent_count_never_exceeds_batch_witness :
    (1 ≤ 1) ∧
    finalState (send_newsletters
        { rate_limit :=
            { emails_per_batch := 1, batch_delay := 0,
              delay_between_emails := 0 },
          subject := "s", from_addr := "f@x.com" } true true "T"
        ["a@x.com", "b@x.com"]
        (fun i _ => if i = 0 then SendResult.success
          else SendResult.otherError "boom") 5) =
      some
        { sent_count := 0, last_send_time := 5, now := 5,
          rows := [⟨"a@x.com", "success", ""⟩, ⟨"b@x.com", "failed", "boom"⟩],
          trace := [Event.rateLimitCheck, Event.sendAttempt 0 0,
            Event.rateLimitCheck, Event.sendAttempt 1 0],
          reconnects := 0, template_reads := 3,
          msgs := [⟨"a@x.com", "s", "f@x.com", "T"⟩,
            ⟨"b@x.com", "s", "f@x.com", "T"⟩],
          sc_writes := [0, 1, 0] } ∧
    (∀ x ∈ [0, 1, 0], x ≤ 1) := by
  have hrun : finalState (send_newsletters
      { rate_limit :=
          { emails_per_batch := 1, batch_delay := 0,
            delay_between_emails := 0 },
        subject := "s", from_addr := "f@x.com" } true true "T"
      ["a@x.com", "b@x.com"]
      (fun i _ => if i = 0 then SendResult.success
        else SendResult.otherError "boom") 5) =
    some
      { sent_count := 0, last_send_time := 5, now := 5,
        rows := [⟨"a@x.com", "success", ""⟩, ⟨"b@x.com", "failed", "boom"⟩],
        trace := [Event.rateLimitCheck, Event.sendAttempt 0 0,
          Event.rateLimitCheck, Event.sendAttempt 1 0],
        reconnects := 0, template_reads := 3,
        msgs := [⟨"a@x.com", "s", "f@x.com", "T"⟩,
          ⟨"b@x.com", "s", "f@x.com", "T"⟩],
        sc_writes := [0, 1, 0] } := by
    norm_num [send_newsletters, sendLoop, attemptLoop, afterSuccess,
      afterOtherError, attemptPrefix, rate_limit, buildMsg, initRunState,
      countdownSleep, finalState, stateOf]
  refine ⟨Nat.le_refl 1, hrun, ?_⟩
  have h := sent_count_never_exceeds_batch _ _ _ _ _ _ _ _
    (Nat.le_refl 1) hrun
  exact h.1



/-- C10 counterexample: the claim says a failed send attempt leaves
sent_count unchanged, but the rate-limit check that runs inside the failed
recipient's attempt may reset sent_count.  Concretely with
emails_per_batch = 1: after recipient a succeeds, sent_count is 1; the
processing of recipient b, whose send fails with a non-disconnection
error, resets sent_count to 0, so the failed attempt does not leave
sent_count unchanged. -/
theorem failed_attempt_can_change_sent_count :
    (stateOf (sendLoop
        { rate_limit :=
            { emails_per_batch := 1, batch_delay := 0,
              delay_between_emails := 0 },
          subject := "s", from_addr := "f@x.com" } "T"
        (fun i _ => if i = 0 then SendResult.success
          else SendResult.otherError "boom") ["a@x.com"] 0
        (initRunState 5))).sent_count = 1 ∧
    attemptLoop
        { rate_limit :=
            { emails_per_batch := 1, batch_delay := 0,
              delay_between_emails := 0 },
          subject := "s", from_addr := "f@x.com" } "T"
        (fun _ => SendResult.otherError "boom") 1 "b@x.com" 0 3
        (stateOf (sendLoop
          { rate_limit :=
              { emails_per_batch := 1, batch_delay := 0,
                delay_between_emails := 0 },
            subject := "s", from_addr := "f@x.com" } "T"
          (fun i _ => if i = 0 then SendResult.success
            else SendResult.otherError "boom") ["a@x.com"] 0
          (initRunState 5))) =
      Except.ok
        { sent_count := 0, last_send_time := 5, now := 5,
          rows := [⟨"a@x.com", "success", ""⟩, ⟨"b@x.com", "failed", "boom"⟩],
          trace := [Event.rateLimitCheck, Event.sendAttempt 0 0,
            Event.rateLimitCheck, Event.sendAttempt 1 0],
          reconnects := 0, template_reads := 3,
          msgs := [⟨"a@x.com", "s", "f@x.com", "T"⟩,
            ⟨"b@x.com", "s", "f@x.com", "T"⟩],
          sc_writes := [0, 1, 0] } ∧
    (0 : Nat) ≠ 1 := by
  refine ⟨?_, ?_, by decide⟩
  · norm_num [sendLoop, attemptLoop, afterSuccess, attemptPrefix,
      rate_limit, buildMsg, initRunState, countdownSleep, stateOf]
  · norm_num [sendLoop, attemptLoop, afterSuccess, afterOtherError,
      attemptPrefix, rate_limit, buildMsg, initRunState, countdownSleep,
      stateOf]

/-- C10 (amended): the exception handlers of a failing send attempt write
neither sent_count nor last_send_time: the rate limiter itself never
writes last_send_time; after a non-disconnection failure the outcome
state keeps last_send_time and keeps sent_count at its value after that
attempt's rate-limit check; the disconnection handler likewise; and for a
recipient none of whose attempts succeed, last_send_time is unchanged and
sent_count does not increase, so failed recipients do not count toward
the batch limit and do not restart the inter-email delay.  (The
rate-limit check preceding an attempt may still reset sent_count to 0
when the batch limit was reached, which is why a failed attempt does not
in general leave sent_count literally unchanged.) -/
theorem failure_frame_properties (cfg : Config) (tmpl : String) :
    (∀ (cfgR : RateLimitCfg) (rs : RunState),
      (rate_limit cfgR rs).last_send_time = rs.last_send_time) ∧
    (∀ (oracle : Nat → SendResult) (idx : Nat) (email : String)
        (attempt fuel : Nat) (m : String) (rs : RunState),
      oracle attempt = SendResult.otherError m →
      (stateOf (attemptLoop cfg tmpl oracle idx email attempt (fuel + 1)
          rs)).sent_count = (rate_limit cfg.rate_limit rs).sent_count ∧
      (stateOf (attemptLoop cfg tmpl oracle idx email attempt (fuel + 1)
          rs)).last_send_time = rs.last_send_time) ∧
    (∀ (idx : Nat) (email : String) (attempt : Nat) (rs : RunState),
      (afterReconnect cfg tmpl idx email attempt rs).sent_count =
        (rate_limit cfg.rate_limit rs).sent_count ∧
      (afterReconnect cfg tmpl idx email attempt rs).last_send_time =
        rs.last_send_time) ∧
    (∀ (oracle : Nat → SendResult) (idx : Nat) (email : String)
        (fuel attempt : Nat) (rs : RunState),
      (∀ a, oracle a ≠ SendResult.success) →
      (stateOf (attemptLoop cfg tmpl oracle idx email attempt fuel
          rs)).last_send_time = rs.last_send_time ∧
      (stateOf (attemptLoop cfg tmpl oracle idx email attempt fuel
          rs)).sent_count ≤ rs.sent_count) := by
  refine ⟨rate_limit_last_send_time, ?_, ?_, ?_⟩
  · intro oracle idx email attempt fuel m rs h
    rw [attemptLoop_other cfg tmpl oracle idx email attempt fuel m rs h,
      stateOf_ok]
    exact ⟨afterOtherError_sent_count cfg tmpl idx email attempt m rs,
      afterOtherError_last_send_time cfg tmpl idx email attempt m rs⟩
  · intro idx email attempt rs
    exact ⟨afterReconnect_sent_count cfg tmpl idx email attempt rs,
      afterReconnect_last_send_time cfg tmpl idx email attempt rs⟩
  · intro oracle idx email fuel attempt rs hns
    exact attemptLoop_no_success_frame cfg tmpl oracle idx email hns fuel
      attempt rs

/-- Witness for the amended C10 theorem at a concrete failing attempt: a
recipient failing with a non-disconnection error keeps last_send_time and
the post-rate-limit sent_count. -/
theorem failure_frame_properties_witness :
    (stateOf (attemptLoop
        { rate_limit :=
            { emails_per_batch := 10, batch_delay := 0,
              delay_between_emails := 0 },
          subject := "s", from_addr := "f@x.com" } "T"
        (fun _ => SendResult.otherError "boom") 0 "a@x.com" 0 (2 + 1)
        (initRunState 5))).last_send_time =
      (initRunState 5).last_send_time ∧
    (stateOf (attemptLoop
        { rate_limit :=
            { emails_per_batch := 10, batch_delay := 0,
              delay_between_emails := 0 },
          subject := "s", from_addr := "f@x.com" } "T"
        (fun _ => SendResult.otherError "boom") 0 "a@x.com" 0 (2 + 1)
        (initRunState 5))).sent_count ≤ (initRunState 5).sent_count := by
  have h := failure_frame_properties
    { rate_limit :=
        { emails_per_batch := 10, batch_delay := 0,
          delay_between_emails := 0 },
      subject := "s", from_addr := "f@x.com" } "T"
  have h4 := h.2.2.2 (fun _ => SendResult.otherError "boom") 0 "a@x.com"
    (2 + 1) 0 (initRunState 5) (by intro a hcontra; cases hcontra)
  exact h4


end NewsletterSender
